import Mathlib

/-!
Verification of the Processing Session Orchestrator
(`src/angular/src/app/modules/processar-homologacao/processar-homologacao.component.ts`).

The component's mutable fields are embedded as a state record `OrchState`;
each method that a claim refers to becomes a pure state-transformer, with the
asynchronous Tauri `invoke` results supplied as oracle parameters.  Calls the
component issues to the backend (persist-log mirroring, `clearInterval`,
`clear_processing_state`, the repair primitive) are recorded in ghost trace
fields of the state so that theorems can speak about which external calls were
made.  `Date` timestamps are elided: the deduplication and capping logic of the
source compares only `message` and `type`, never timestamps.
-/

namespace Orchestrator

/-- The four log kinds of the source union type
    `'info' | 'success' | 'error' | 'progress'`. -/
inductive LogType where
  | info
  | success
  | error
  | progress
deriving DecidableEq, Repr

/-- One entry of the transient log `progressLogs`
    (source shape `{message, timestamp, type}`; the timestamp is elided). -/
structure LogEntry where
  message : String
  type : LogType
deriving DecidableEq, Repr

/-- An error object thrown by a Tauri `invoke` call, as inspected by the
    component: only the `message` and `details` string fields are read. -/
structure StoreErr where
  message : String
  details : String
deriving DecidableEq, Repr

/-- The persisted configuration blob (`AppConfig` interface); persisted log
    entries are reduced to `(message, type)` pairs, timestamps elided. -/
structure AppCfg where
  last_input_directory : Option String := none
  last_output_directory : Option String := none
  verbose : Bool := false
  processing_logs : List (String × LogType) := []
  max_logs : Nat := 50
deriving DecidableEq, Repr

/-- The worker's per-tick status reply (`ProcessingStatus` interface). -/
structure PStatus where
  is_processing : Bool
  current_file : Option String
  processed_files : Nat
  total_files : Nat
  errors : List String
deriving DecidableEq, Repr

/-- The worker's submission reply (`ProcessingResult` interface), reduced to
    the fields the component reads; `propostasCount` stands for
    `result.propostas.length`. -/
structure MiniResult where
  success : Bool
  message : String
  propostasCount : Nat
  total_processed : Nat
  json_file_path : Option String
  session_id : Option String
deriving DecidableEq, Repr

/-- The component's mutable fields, plus ghost trace fields (marked ghost)
    recording the external calls issued. -/
structure OrchState where
  selectedFile : String := ""
  pdfDirectory : String := ""
  outputDirectory : String := ""
  verbose : Bool := false
  processing : Bool := false
  processingResult : Option MiniResult := none
  processingStatus : Option PStatus := none
  currentSessionId : String := ""
  /-- the `progressInterval` timer handle; `some h` = a live handle id. -/
  progressInterval : Option Nat := none
  progressLogs : List LogEntry := []
  totalProposals : Nat := 0
  appConfig : Option AppCfg := none
  configLoaded : Bool := false
  persistentLogs : List (String × LogType) := []
  isRepairingConfig : Bool := false
  /-- ghost: next fresh timer id handed out by `setInterval`. -/
  nextTimerId : Nat := 0
  /-- ghost: timer ids created by `setInterval` and not yet cleared. -/
  liveTimers : List Nat := []
  /-- ghost: number of `clearInterval` invocations issued. -/
  clearCalls : Nat := 0
  /-- ghost: `addPersistentLog` mirroring requests issued by `addLog`. -/
  persistCalls : List (String × LogType) := []
  /-- ghost: `clear_processing_state` invocations issued. -/
  clearStateCalls : List String := []
  /-- ghost: whether `isRepairingConfig` was ever assigned `true`. -/
  flagWasSet : Bool := false
deriving DecidableEq, Repr

/-- Source lines 733-739 of `addLog`: a `progress` entry whose message equals
    the last transient entry's message (itself of `progress` type) is a
    duplicate and is discarded. -/
def isDupProgress (logs : List LogEntry) (message : String) (type : LogType) :
    Bool :=
  match type, logs.getLast? with
  | LogType.progress, some lastLog =>
    match lastLog.type with
    | LogType.progress => lastLog.message == message
    | _ => false
  | _, _ => false

/-- `addLog(message, type)` (source lines 726-753): deduplicate consecutive
    identical progress entries, push, keep only the last 100 entries, and for
    non-progress entries outside a repair cycle issue an `addPersistentLog`
    mirroring request (recorded in the ghost `persistCalls` trace). -/
def addLog (s : OrchState) (message : String) (type : LogType) : OrchState :=
  if isDupProgress s.progressLogs message type then s
  else
    let pushed := s.progressLogs ++ [⟨message, type⟩]
    let trimmed := if pushed.length > 100 then pushed.drop (pushed.length - 100)
                   else pushed
    let s1 := { s with progressLogs := trimmed }
    if type = LogType.progress then s1
    else if s1.isRepairingConfig then s1
    else { s1 with persistCalls := s1.persistCalls ++ [(message, type)] }

/-- Containment of `sub` as a contiguous sublist: `sub` is a prefix of some
    suffix. -/
def listInfix (sub : List Char) : List Char → Bool
  | [] => sub.isEmpty
  | c :: rest => sub.isPrefixOf (c :: rest) || listInfix sub rest

/-- JavaScript's `String.prototype.includes`: substring containment. -/
def strIncludes (s sub : String) : Bool :=
  listInfix sub.toList s.toList

/-- Source lines 357, 460: `error?.message?.includes('UTF-8') ||
    error?.message?.includes('stream did not contain valid UTF-8')`. -/
def isUtf8Error (e : StoreErr) : Bool :=
  strIncludes e.message "UTF-8" ||
    strIncludes e.message "stream did not contain valid UTF-8"

/-- Source lines 358-359, 461-462: `error?.details?.includes(
    'licitacao360_config.json') && (error?.message?.includes('deserializar')
    || error?.message?.includes('trailing characters'))`. -/
def isDeserializationError (e : StoreErr) : Bool :=
  strIncludes e.details "licitacao360_config.json" &&
    (strIncludes e.message "deserializar" ||
      strIncludes e.message "trailing characters")

/-- The corruption classifier used by `loadConfiguration` (lines 357-361) and
    `addPersistentLog` (lines 460-464): `isUtf8Error || isDeserializationError`. -/
def corruptionSig (e : StoreErr) : Bool :=
  isUtf8Error e || isDeserializationError e

/-- The distinct corruption classifier used by `initializeConfiguration`
    (lines 183-186): a plain disjunction of all four substring checks. -/
def isConfigErrorInit (e : StoreErr) : Bool :=
  strIncludes e.details "licitacao360_config.json" ||
    strIncludes e.message "UTF-8" ||
    strIncludes e.message "deserializar" ||
    strIncludes e.message "trailing characters"

/-- `stopProgressMonitoring()` (lines 715-720): clear the interval only when
    the handle is non-null, then null the handle. -/
def stopProgressMonitoring (s : OrchState) : OrchState :=
  match s.progressInterval with
  | some h =>
    { s with progressInterval := none,
             liveTimers := s.liveTimers.filter (fun x => x != h),
             clearCalls := s.clearCalls + 1 }
  | none => s

/-- `startProgressMonitoring(sessionId)` (lines 675-678, 712-713): log the
    start message, then overwrite `progressInterval` with a fresh
    `setInterval` handle.  The previous handle, if any, is NOT cleared. -/
def startProgressMonitoring (s : OrchState) (_sessionId : String) : OrchState :=
  let s1 := addLog s "📊 Monitoramento de progresso iniciado" LogType.info
  { s1 with progressInterval := some s1.nextTimerId,
            liveTimers := s1.liveTimers ++ [s1.nextTimerId],
            nextTimerId := s1.nextTimerId + 1 }

/-- The reply an interval tick's `get_processing_status` call resolves to:
    either a status object or a rejection. -/
inductive PollResult where
  | ok (status : PStatus)
  | err
deriving DecidableEq, Repr

/-- One execution of the `setInterval` callback of `startProgressMonitoring`
    (lines 678-712), given the worker's reply `r` for this tick:
    store the status, log the current file as a progress entry, surface each
    worker-reported error, and on a terminal status (`is_processing = false`)
    stop the timer, log completion, and issue `clear_processing_state`.
    On a rejected status call (catch, lines 708-711) only
    `stopProgressMonitoring` runs (the failure goes to the console). -/
def pollTick (s : OrchState) (sessionId : String) (r : PollResult) :
    OrchState :=
  match r with
  | PollResult.err => stopProgressMonitoring s
  | PollResult.ok status =>
    let s1 := { s with processingStatus := some status }
    let s2 := match status.current_file with
      | some f =>
        addLog s1
          ("📄 Processando: " ++ f ++ " (" ++ toString status.processed_files
            ++ "/" ++ toString status.total_files ++ ")")
          LogType.progress
      | none => s1
    let s3 := status.errors.foldl
      (fun acc e => addLog acc ("❌ " ++ e) LogType.error) s2
    if status.is_processing then s3
    else
      let s4 := stopProgressMonitoring s3
      let s5 := addLog s4 "✅ Processamento concluído" LogType.success
      { s5 with clearStateCalls := s5.clearStateCalls ++ [sessionId] }

/-- The synchronous prefix of a submit method, up to its worker `invoke`:
    either the guard rejected the submission, or the call is in flight with
    the mutated state. -/
inductive SubmitPhase where
  | rejected (s : OrchState)
  | inflight (s : OrchState)
deriving DecidableEq, Repr

/-- Whether the submit prefix reached the worker call. -/
def SubmitPhase.started : SubmitPhase → Bool
  | SubmitPhase.rejected _ => false
  | SubmitPhase.inflight _ => true

/-- The state carried by either phase. -/
def SubmitPhase.state : SubmitPhase → OrchState
  | SubmitPhase.rejected s => s
  | SubmitPhase.inflight s => s

/-- `processFile()` up to `await invoke('process_pdf_file', ...)` (lines
    569-588): reject when no file or output directory is selected, otherwise
    reset the processing state, stamp a fresh session id (`Date.now()`,
    supplied as `nowId`), log, and issue the worker call. -/
def processFileStart (s : OrchState) (nowId : String) : SubmitPhase :=
  if s.selectedFile = "" ∨ s.outputDirectory = "" then
    SubmitPhase.rejected
      (addLog s "❌ Arquivo ou pasta de saída não selecionados" LogType.error)
  else
    let s1 := { s with processing := true, processingResult := none,
                       progressLogs := [], totalProposals := 0,
                       currentSessionId := nowId }
    SubmitPhase.inflight
      (addLog s1 "🔄 Iniciando processamento do arquivo..." LogType.info)

/-- `processDirectory()` up to its worker `invoke` (lines 621-641). -/
def processDirectoryStart (s : OrchState) (nowId : String) : SubmitPhase :=
  if s.pdfDirectory = "" ∨ s.outputDirectory = "" then
    SubmitPhase.rejected
      (addLog s "❌ Pasta ou pasta de saída não selecionadas" LogType.error)
  else
    let s1 := { s with processing := true, processingResult := none,
                       progressLogs := [], totalProposals := 0,
                       currentSessionId := nowId }
    SubmitPhase.inflight
      (addLog s1 "🔄 Iniciando processamento da pasta..." LogType.info)

/-- `processFixedDirectory()` up to its worker `invoke` (lines 948-961):
    it has no guard at all. -/
def processFixedDirectoryStart (s : OrchState) (nowId : String) :
    SubmitPhase :=
  let s1 := { s with processing := true, processingResult := none,
                     progressLogs := [], totalProposals := 0,
                     currentSessionId := nowId }
  SubmitPhase.inflight
    (addLog s1 "🔄 Iniciando processamento da pasta PDF..." LogType.info)

/-- `processSinglePdfFile(fileInfo)` up to its worker `invoke` (lines
    1092-1111); `hasFile` models the truthiness of the `fileInfo` argument
    and `fileName` its `file_name` field. -/
def processSinglePdfFileStart (s : OrchState) (hasFile : Bool)
    (fileName : String) (nowId : String) : SubmitPhase :=
  if hasFile = false ∨ s.outputDirectory = "" then
    SubmitPhase.rejected
      (addLog s "❌ Arquivo ou pasta de saída não selecionados" LogType.error)
  else
    let s1 := { s with processing := true, processingResult := none,
                       progressLogs := [], totalProposals := 0,
                       currentSessionId := nowId }
    SubmitPhase.inflight
      (addLog s1 ("🔄 Processando arquivo: " ++ fileName) LogType.info)

/-- The resumption of `processFile` after its worker call resolves with
    `result` (lines 590-618): adopt the worker's session id and start
    monitoring, record the result, log the outcome, and in the `finally`
    block clear `processing` and stop monitoring. -/
def processFileResume (s : OrchState) (result : MiniResult) : OrchState :=
  let s1 := match result.session_id with
    | some sid => startProgressMonitoring { s with currentSessionId := sid } sid
    | none => s
  let s2 := { s1 with processingResult := some result,
                      totalProposals := result.propostasCount }
  let s3 :=
    if result.success then
      let sa := addLog s2
        ("✅ Arquivo processado com sucesso! " ++ toString result.propostasCount
          ++ " propostas encontradas") LogType.success
      match result.json_file_path with
      | some p => addLog sa ("📄 Arquivo JSON salvo em: " ++ p) LogType.success
      | none => sa
    else addLog s2 ("❌ Erro no processamento: " ++ result.message) LogType.error
  stopProgressMonitoring { s3 with processing := false }

/-- The reply of the `debug_and_repair_config` store primitive
    (`ConfigResult` interface, reduced to the fields read). -/
structure RepairReply where
  success : Bool
  message : String
deriving DecidableEq, Repr

/-- Distinguishes the early-return "skipped" path of
    `performAutomaticRepair` from a run that invoked the store primitive. -/
inductive RepairOutcome where
  | skipped
  | ran
deriving DecidableEq, Repr

/-- The whitespace characters relevant to trimming report lines. -/
def isWhitespaceChar (c : Char) : Bool :=
  c = ' ' || c = '\t' || c = '\n' || c = '\r'

/-- JavaScript's `String.prototype.trim` on the report lines the component
    handles: strip leading and trailing whitespace. -/
def trimStr (s : String) : String :=
  String.mk
    ((s.toList.dropWhile isWhitespaceChar).reverse.dropWhile
      isWhitespaceChar).reverse

/-- Accumulator-passing splitter for `splitLines`. -/
def splitLinesGo : List Char → List Char → List String
  | cur, [] => [String.mk cur.reverse]
  | cur, c :: rest =>
    if c = '\n' then String.mk cur.reverse :: splitLinesGo [] rest
    else splitLinesGo (c :: cur) rest

/-- JavaScript's `message.split('\n')`: split a report into its lines. -/
def splitLines (s : String) : List String :=
  splitLinesGo [] s.toList

/-- Log every non-blank line of a repair report, two-space indented
    (the `for (const line of lines)` loops of lines 298-302 and 331-335). -/
def logReportLines (s : OrchState) (lines : List String) : OrchState :=
  lines.foldl
    (fun acc line =>
      if trimStr line = "" then acc
      else addLog acc ("  " ++ trimStr line) LogType.info) s

/-- `performAutomaticRepair()` (lines 280-318): when `isRepairingConfig` is
    already set, return immediately (console warning only) without invoking
    the store's repair primitive.  Otherwise set the flag, invoke
    `debug_and_repair_config` (its reply supplied as `reply`), log the
    outcome (first 10 report lines on success), and clear the flag in the
    `finally` block.  The second component reports whether the store
    primitive was invoked. -/
def performAutomaticRepair (s : OrchState) (reply : RepairReply) :
    OrchState × RepairOutcome :=
  if s.isRepairingConfig then (s, RepairOutcome.skipped)
  else
    let s1 := { s with isRepairingConfig := true, flagWasSet := true }
    let s2 := addLog s1 "🔧 Executando reparo automático da configuração..."
      LogType.info
    let s3 :=
      if reply.success then
        let sa := addLog s2 "✅ Reparo automático executado com sucesso"
          LogType.success
        logReportLines sa ((splitLines reply.message).take 10)
      else addLog s2 "❌ Falha no reparo automático" LogType.error
    ({ s3 with isRepairingConfig := false }, RepairOutcome.ran)

/-- A deferred action scheduled with `setTimeout`, to run after the current
    call stack unwinds. -/
inductive DeferredAction where
  | scheduleRepair
deriving DecidableEq, Repr

/-- `addPersistentLog(message, type)` (lines 433-475): skip entirely while a
    repair cycle runs; otherwise invoke `add_config_log` (its result supplied
    as the oracle `r`).  On success the configuration is reloaded and
    `persistentLogs` refreshed (the reloaded config supplied inside `Except.ok`).
    On failure (catch, lines 452-474) the error is written to the console
    only, and when it matches the corruption signature and no repair is
    running, one deferred `performAutomaticRepair` invocation is scheduled
    via `setTimeout` — the returned `DeferredAction` list. -/
def addPersistentLog (s : OrchState) (message : String) (type : LogType)
    (r : Except StoreErr AppCfg) : OrchState × List DeferredAction :=
  if s.isRepairingConfig then (s, [])
  else
    match r with
    | Except.ok cfg =>
      ({ s with persistCalls := s.persistCalls ++ [(message, type)],
                appConfig := some cfg, configLoaded := true,
                persistentLogs := cfg.processing_logs }, [])
    | Except.error e =>
      if corruptionSig e && !s.isRepairingConfig then
        (s, [DeferredAction.scheduleRepair])
      else (s, [])

/-- The configuration world for the `loadConfiguration` /
    `repairConfiguration` pair: the component state next to the queued
    replies of the `load_app_config` and `debug_and_repair_config`
    primitives, and ghost counters of how often each was invoked. -/
structure World where
  st : OrchState
  loadQueue : List (Except StoreErr AppCfg)
  repairQueue : List RepairReply
  loadCalls : Nat := 0
  repairCalls : Nat := 0
deriving Repr

mutual

/-- `loadConfiguration()` (lines 348-372): invoke `load_app_config`
    (consuming the next queued reply); on success store the config; on
    failure clear `configLoaded`, and when the error matches the corruption
    signature log it and fall through to `repairConfiguration`, otherwise
    log a plain load error.  `fuel` bounds the mutual recursion with
    `repairConfiguration`; with `fuel = 0` the call does nothing. -/
def loadConfiguration : Nat → World → World
  | 0, w => w
  | n + 1, w =>
    match w.loadQueue with
    | [] => w
    | r :: rest =>
      let w1 := { w with loadQueue := rest, loadCalls := w.loadCalls + 1 }
      match r with
      | Except.ok cfg =>
        { w1 with st := { w1.st with appConfig := some cfg,
                                     configLoaded := true } }
      | Except.error e =>
        let w2 := { w1 with st := { w1.st with configLoaded := false } }
        if corruptionSig e then
          let st1 := addLog w2.st
            (if isUtf8Error e then
              "⚠️ Arquivo de configuração contém dados UTF-8 inválidos"
            else "⚠️ Arquivo de configuração corrompido detectado")
            LogType.error
          repairConfiguration n { w2 with st := st1 }
        else
          let st1 := addLog w2.st
            ("❌ Erro ao carregar configuração: " ++ e.message) LogType.error
          { w2 with st := st1 }

/-- `repairConfiguration()` (lines 320-346): log, invoke
    `debug_and_repair_config` (consuming the next queued reply); on success
    log the report lines and reload the configuration via
    `loadConfiguration`; on failure log and stop (no retry).
    Note this path never touches `isRepairingConfig`. -/
def repairConfiguration : Nat → World → World
  | 0, w => w
  | n + 1, w =>
    let st1 := addLog w.st
      "🔧 Detectado problema na configuração, tentando reparar..." LogType.info
    match w.repairQueue with
    | [] => { w with st := st1 }
    | reply :: rest =>
      let w1 := { w with st := st1, repairQueue := rest,
                         repairCalls := w.repairCalls + 1 }
      if reply.success then
        let sa := addLog w1.st "✅ Configuração reparada com sucesso"
          LogType.success
        let sb := logReportLines sa (splitLines reply.message)
        loadConfiguration n { w1 with st := sb }
      else
        let sa := addLog w1.st "❌ Falha ao reparar configuração" LogType.error
        { w1 with st := sa }

end

/-- Count of terminal-completion entries in a transient log. -/
def completionCount (logs : List LogEntry) : Nat :=
  logs.countP
    (fun en => en.message == "✅ Processamento concluído"
      && en.type == LogType.success)

end Orchestrator

namespace Orchestrator

lemma addLog_progressLogs (s : OrchState) (m : String) (t : LogType) :
    (addLog s m t).progressLogs =
      if isDupProgress s.progressLogs m t then s.progressLogs
      else if (s.progressLogs ++ [LogEntry.mk m t]).length > 100 then
        (s.progressLogs ++ [LogEntry.mk m t]).drop
          ((s.progressLogs ++ [LogEntry.mk m t]).length - 100)
      else s.progressLogs ++ [LogEntry.mk m t] := by
  simp only [addLog]; split_ifs <;> rfl

lemma addLog_persistCalls (s : OrchState) (m : String) (t : LogType) :
    (addLog s m t).persistCalls =
      if isDupProgress s.progressLogs m t then s.persistCalls
      else if t = LogType.progress then s.persistCalls
      else if s.isRepairingConfig then s.persistCalls
      else s.persistCalls ++ [(m, t)] := by
  simp only [addLog]; split_ifs <;> rfl

lemma addLog_configLoaded (s : OrchState) (m : String) (t : LogType) :
    (addLog s m t).configLoaded = s.configLoaded := by
  simp only [addLog]; split_ifs <;> rfl

lemma addLog_flagWasSet (s : OrchState) (m : String) (t : LogType) :
    (addLog s m t).flagWasSet = s.flagWasSet := by
  simp only [addLog]; split_ifs <;> rfl

lemma addLog_isRepairingConfig (s : OrchState) (m : String) (t : LogType) :
    (addLog s m t).isRepairingConfig = s.isRepairingConfig := by
  simp only [addLog]; split_ifs <;> rfl

lemma addLog_processing (s : OrchState) (m : String) (t : LogType) :
    (addLog s m t).processing = s.processing := by
  simp only [addLog]; split_ifs <;> rfl

lemma addLog_appConfig (s : OrchState) (m : String) (t : LogType) :
    (addLog s m t).appConfig = s.appConfig := by
  simp only [addLog]; split_ifs <;> rfl

lemma logReportLines_configLoaded (lines : List String) (s : OrchState) :
    (logReportLines s lines).configLoaded = s.configLoaded := by
  induction lines generalizing s with
  | nil => rfl
  | cons l ls ih =>
    unfold logReportLines at ih ⊢
    simp only [List.foldl_cons]
    rw [ih]
    split_ifs <;> simp [addLog_configLoaded]

lemma logReportLines_flagWasSet (lines : List String) (s : OrchState) :
    (logReportLines s lines).flagWasSet = s.flagWasSet := by
  induction lines generalizing s with
  | nil => rfl
  | cons l ls ih =>
    unfold logReportLines at ih ⊢
    simp only [List.foldl_cons]
    rw [ih]
    split_ifs <;> simp [addLog_flagWasSet]

lemma isDupProgress_of_ne_progress (logs : List LogEntry) (m : String)
    (t : LogType) (h : t ≠ LogType.progress) :
    isDupProgress logs m t = false := by
  unfold isDupProgress
  cases t <;> simp_all

/-- C4: `performAutomaticRepair` invoked while `isRepairingConfig` is already
    set returns immediately with the skipped outcome and leaves the state —
    including every ghost call trace — untouched; in particular the store's
    repair primitive (`debug_and_repair_config`) is not invoked, which is
    what the `ran` outcome would record. -/
theorem c4_repair_skipped_when_flag_set (s : OrchState) (reply : RepairReply)
    (h : s.isRepairingConfig = true) :
    performAutomaticRepair s reply = (s, RepairOutcome.skipped) := by
  unfold performAutomaticRepair
  simp [h]

/-- C4 witness: concrete skipped invocation. -/
theorem c4_witness :
    performAutomaticRepair { isRepairingConfig := true } ⟨true, "ok"⟩
      = ({ isRepairingConfig := true }, RepairOutcome.skipped) :=
  c4_repair_skipped_when_flag_set { isRepairingConfig := true } ⟨true, "ok"⟩
    rfl

/-- C8: `addLog` issues a mirroring request for the entry exactly when the
    entry's kind is not `progress` and no repair cycle is in progress, and a
    call never issues more than this one request. -/
theorem c8_mirror_iff (s : OrchState) (m : String) (t : LogType) :
    ((addLog s m t).persistCalls = s.persistCalls ++ [(m, t)]
        ↔ t ≠ LogType.progress ∧ s.isRepairingConfig = false)
      ∧ ((addLog s m t).persistCalls = s.persistCalls
          ∨ (addLog s m t).persistCalls = s.persistCalls ++ [(m, t)]) := by
  have hlen : s.persistCalls ≠ s.persistCalls ++ [(m, t)] := by
    intro hcontra
    have := congrArg List.length hcontra
    simp at this
  rw [addLog_persistCalls]
  split_ifs with h1 h2 h3
  · refine ⟨⟨fun hc => absurd hc hlen, ?_⟩, Or.inl rfl⟩
    rintro ⟨ht, -⟩
    rw [isDupProgress_of_ne_progress s.progressLogs m t ht] at h1
    exact absurd h1 (by simp)
  · refine ⟨⟨fun hc => absurd hc hlen, ?_⟩, Or.inl rfl⟩
    rintro ⟨ht, -⟩
    exact absurd h2 ht
  · refine ⟨⟨fun hc => absurd hc hlen, ?_⟩, Or.inl rfl⟩
    rintro ⟨-, hflag⟩
    rw [hflag] at h3
    exact absurd h3 (by simp)
  · refine ⟨⟨fun _ => ⟨h2, ?_⟩, fun _ => rfl⟩, Or.inr rfl⟩
    simpa using h3

/-- C9: appending a `progress` entry whose message equals the last transient
    entry (itself of `progress` kind) leaves the whole state unchanged — the
    entry is discarded and the transient log does not grow. -/
theorem c9_progress_dedup (s : OrchState) (lastLog : LogEntry)
    (hlast : s.progressLogs.getLast? = some lastLog)
    (htype : lastLog.type = LogType.progress) :
    addLog s lastLog.message LogType.progress = s := by
  obtain ⟨lm, lt⟩ := lastLog
  simp only [LogEntry.type] at htype
  subst htype
  have hdup : isDupProgress s.progressLogs lm LogType.progress = true := by
    simp [isDupProgress, hlast]
  simp only [LogEntry.message]
  unfold addLog
  simp [hdup]

/-- C9 witness: concrete duplicate progress append. -/
theorem c9_witness :
    addLog { progressLogs := [⟨"processing f.pdf", LogType.progress⟩] }
        "processing f.pdf" LogType.progress
      = { progressLogs := [⟨"processing f.pdf", LogType.progress⟩] } :=
  c9_progress_dedup
    { progressLogs := [⟨"processing f.pdf", LogType.progress⟩] }
    ⟨"processing f.pdf", LogType.progress⟩ rfl rfl

/-- C10: starting from a transient log within the 100-entry cap, any
    `addLog` call leaves at most 100 entries, and the resulting log is either
    unchanged (duplicate progress discard) or exactly the most recent
    entries, in order, of the log with the new entry appended — the oldest
    entries being the ones dropped. -/
theorem c10_transient_cap_fifo (s : OrchState) (m : String) (t : LogType)
    (hcap : s.progressLogs.length ≤ 100) :
    (addLog s m t).progressLogs.length ≤ 100
      ∧ ((addLog s m t).progressLogs = s.progressLogs
        ∨ (addLog s m t).progressLogs
            = (s.progressLogs ++ [LogEntry.mk m t]).drop
                (s.progressLogs.length + 1 - 100)) := by
  rw [addLog_progressLogs]
  by_cases hdup : isDupProgress s.progressLogs m t = true
  · simp [hdup, hcap]
  · simp only [hdup, if_false, Bool.false_eq_true]
    by_cases htrim : (s.progressLogs ++ [LogEntry.mk m t]).length > 100
    · simp only [htrim, if_true]
      refine ⟨?_, Or.inr ?_⟩
      · rw [List.length_drop]; omega
      · congr 1
        simp
    · simp only [htrim, if_false]
      have hle : s.progressLogs.length + 1 ≤ 100 := by
        simp only [List.length_append, List.length_cons,
          List.length_nil] at htrim
        omega
      refine ⟨by simp; omega, Or.inr ?_⟩
      rw [Nat.sub_eq_zero_of_le hle, List.drop_zero]

lemma addLog_progressInterval (s : OrchState) (m : String) (t : LogType) :
    (addLog s m t).progressInterval = s.progressInterval := by
  simp only [addLog]; split_ifs <;> rfl

lemma addLog_clearCalls (s : OrchState) (m : String) (t : LogType) :
    (addLog s m t).clearCalls = s.clearCalls := by
  simp only [addLog]; split_ifs <;> rfl

lemma stop_of_some (s : OrchState) (h : Nat)
    (hint : s.progressInterval = some h) :
    stopProgressMonitoring s
      = { s with progressInterval := none,
                 liveTimers := s.liveTimers.filter (fun x => x != h),
                 clearCalls := s.clearCalls + 1 } := by
  unfold stopProgressMonitoring
  rw [hint]

lemma stop_of_none (s : OrchState) (hint : s.progressInterval = none) :
    stopProgressMonitoring s = s := by
  unfold stopProgressMonitoring
  rw [hint]

lemma stop_progressLogs (s : OrchState) :
    (stopProgressMonitoring s).progressLogs = s.progressLogs := by
  unfold stopProgressMonitoring
  cases s.progressInterval <;> rfl

lemma stop_processing (s : OrchState) :
    (stopProgressMonitoring s).processing = s.processing := by
  unfold stopProgressMonitoring
  cases s.progressInterval <;> rfl

lemma stop_processingStatus (s : OrchState) :
    (stopProgressMonitoring s).processingStatus = s.processingStatus := by
  unfold stopProgressMonitoring
  cases s.progressInterval <;> rfl

lemma stop_persistCalls (s : OrchState) :
    (stopProgressMonitoring s).persistCalls = s.persistCalls := by
  unfold stopProgressMonitoring
  cases s.progressInterval <;> rfl

lemma stop_progressInterval (s : OrchState) :
    (stopProgressMonitoring s).progressInterval = none
      ∨ s.progressInterval = none := by
  cases hint : s.progressInterval with
  | none => exact Or.inr rfl
  | some h => exact Or.inl (by rw [stop_of_some s h hint])

/-- An `addLog` call for a non-progress entry on a log within 99 entries is
    a plain append (no deduplication, no trimming). -/
lemma addLog_progressLogs_append (s : OrchState) (m : String) (t : LogType)
    (hne : t ≠ LogType.progress) (hlen : s.progressLogs.length ≤ 99) :
    (addLog s m t).progressLogs = s.progressLogs ++ [LogEntry.mk m t] := by
  rw [addLog_progressLogs, isDupProgress_of_ne_progress s.progressLogs m t hne]
  have hlen2 : ¬(s.progressLogs ++ [LogEntry.mk m t]).length > 100 := by
    simp only [List.length_append, List.length_cons, List.length_nil]
    omega
  simp [hlen2]
  intro hcontra
  omega

/-- C10 witness: a concrete small-log append stays within the cap. -/
theorem c10_witness :
    (addLog { progressLogs := [⟨"a", LogType.info⟩] } "b"
        LogType.info).progressLogs.length ≤ 100
      ∧ ((addLog { progressLogs := [⟨"a", LogType.info⟩] } "b"
            LogType.info).progressLogs = [LogEntry.mk "a" LogType.info]
        ∨ (addLog { progressLogs := [⟨"a", LogType.info⟩] } "b"
              LogType.info).progressLogs
            = ([LogEntry.mk "a" LogType.info] ++ [LogEntry.mk "b" LogType.info]).drop
                ((1 : Nat) + 1 - 100)) :=
  c10_transient_cap_fifo { progressLogs := [⟨"a", LogType.info⟩] } "b"
    LogType.info (by decide)


/-- C3 (amended): when mirroring a log entry fails, the component state is
    completely unchanged — nothing is appended to the transient ring or the
    persisted log, and in particular no recursive `addLog`/`addPersistentLog`
    call with `Error` kind happens (the failure goes to the developer console
    only) — and one deferred repair invocation is scheduled via `setTimeout`
    exactly when the error carries the corruption signature and no repair is
    already running. -/
theorem c3_amended_mirror_failure (s : OrchState) (m : String) (t : LogType)
    (e : StoreErr) :
    addPersistentLog s m t (Except.error e)
      = (s, if s.isRepairingConfig = false ∧ corruptionSig e = true
            then [DeferredAction.scheduleRepair] else []) := by
  unfold addPersistentLog
  by_cases hflag : s.isRepairingConfig = true
  · simp [hflag]
  · have hflag' : s.isRepairingConfig = false := by
      cases hrc : s.isRepairingConfig
      · rfl
      · exact absurd hrc hflag
    by_cases hcorr : corruptionSig e = true
    · simp [hflag', hcorr]
    · simp [hflag', hcorr]

/-- C3 counterexample: a concrete mirroring failure with a corruption
    signature leaves the transient ring untouched — the failure is NOT logged
    to the transient ring (it goes only to the developer console), refuting
    the claim's positive logging statement; the deferred repair is still
    scheduled. -/
theorem c3_counterexample :
    (addPersistentLog { progressLogs := [LogEntry.mk "x" LogType.info] }
        "boom" LogType.error
        (Except.error ⟨"stream did not contain valid UTF-8", ""⟩)).1
      = { progressLogs := [LogEntry.mk "x" LogType.info] }
      ∧ (addPersistentLog { progressLogs := [LogEntry.mk "x" LogType.info] }
          "boom" LogType.error
          (Except.error ⟨"stream did not contain valid UTF-8", ""⟩)).2
        = [DeferredAction.scheduleRepair] := by
  constructor <;> decide

/-- C7 (amended): a rejected status call during polling only stops the
    polling loop: the timer handle ends up cleared (no retry can follow), but
    no log entry of any kind is appended, no mirroring request is issued, and
    neither `processing` nor `processingStatus` is touched — the session is
    not marked failed; the error goes to the developer console only. -/
theorem c7_amended_poll_failure (s : OrchState) (sid : String) :
    pollTick s sid PollResult.err = stopProgressMonitoring s
      ∧ (pollTick s sid PollResult.err).progressLogs = s.progressLogs
      ∧ (pollTick s sid PollResult.err).processing = s.processing
      ∧ (pollTick s sid PollResult.err).processingStatus = s.processingStatus
      ∧ (pollTick s sid PollResult.err).persistCalls = s.persistCalls
      ∧ (pollTick s sid PollResult.err).progressInterval = none := by
  refine ⟨rfl, stop_progressLogs s, stop_processing s, stop_processingStatus s,
    stop_persistCalls s, ?_⟩
  rcases stop_progressInterval s with h | h
  · exact h
  · show (stopProgressMonitoring s).progressInterval = none
    rw [stop_of_none s h, h]

/-- C7 counterexample: with a session actively polling, a failed status call
    leaves the transient log empty (no `Error`-kind entry is surfaced, where
    the claim requires exactly one) and leaves `processing` set (the session
    is not marked failed). -/
theorem c7_counterexample :
    (pollTick { processing := true, progressInterval := some 0,
                liveTimers := [0] } "s1" PollResult.err).progressLogs = []
      ∧ (pollTick { processing := true, progressInterval := some 0,
                    liveTimers := [0] } "s1" PollResult.err).processing = true
      ∧ (pollTick { processing := true, progressInterval := some 0,
                    liveTimers := [0] } "s1" PollResult.err).persistCalls
        = [] := by
  refine ⟨?_, ?_, ?_⟩ <;> decide

/-- A terminal worker status with no current file and no errors, as the
    polling loop observes when the worker is done. -/
def terminalOkStatus : PStatus :=
  { is_processing := false, current_file := none, processed_files := 3,
    total_files := 3, errors := [] }

lemma pollTick_terminal (s : OrchState) (sid : String) :
    pollTick s sid (PollResult.ok terminalOkStatus)
      = (let s4 := stopProgressMonitoring
           { s with processingStatus := some terminalOkStatus };
         let s5 := addLog s4 "✅ Processamento concluído" LogType.success;
         { s5 with clearStateCalls := s5.clearStateCalls ++ [sid] }) := rfl

/-- The concrete session state used by the C2 counterexample: a live
    polling timer handle. -/
def c2State : OrchState := { progressInterval := some 0, liveTimers := [0] }

/-- One terminal tick observed from `c2State`. -/
def c2Once : OrchState := pollTick c2State "s1" (PollResult.ok terminalOkStatus)

/-- A duplicate terminal tick replayed on `c2Once`. -/
def c2Twice : OrchState := pollTick c2Once "s1" (PollResult.ok terminalOkStatus)

/-- C2 counterexample: with a live polling timer, the first terminal
    observation clears the interval once, and replaying the same terminal
    observation (a simulated duplicate tick) does not call `clearInterval`
    again — but it logs the completion message a second time, so the
    transient log ends with two completion entries, refuting "does not
    double-log completion". -/
theorem c2_counterexample :
    c2Once.clearCalls = 1 ∧ c2Twice.clearCalls = 1
      ∧ completionCount c2Once.progressLogs = 1
      ∧ completionCount c2Twice.progressLogs = 2 := by
  refine ⟨?_, ?_, ?_, ?_⟩ <;> decide

lemma pollTick_terminal_progressInterval (s : OrchState) (sid : String) :
    (pollTick s sid (PollResult.ok terminalOkStatus)).progressInterval
      = (stopProgressMonitoring
          { s with processingStatus := some terminalOkStatus
          }).progressInterval :=
  addLog_progressInterval
    (stopProgressMonitoring { s with processingStatus := some terminalOkStatus })
    "✅ Processamento concluído" LogType.success

lemma pollTick_terminal_clearCalls (s : OrchState) (sid : String) :
    (pollTick s sid (PollResult.ok terminalOkStatus)).clearCalls
      = (stopProgressMonitoring
          { s with processingStatus := some terminalOkStatus }).clearCalls :=
  addLog_clearCalls
    (stopProgressMonitoring { s with processingStatus := some terminalOkStatus })
    "✅ Processamento concluído" LogType.success

lemma pollTick_terminal_progressLogs (s : OrchState) (sid : String)
    (hlen : s.progressLogs.length ≤ 99) :
    (pollTick s sid (PollResult.ok terminalOkStatus)).progressLogs
      = s.progressLogs
        ++ [LogEntry.mk "✅ Processamento concluído" LogType.success] := by
  have hst : (stopProgressMonitoring
      { s with processingStatus := some terminalOkStatus }).progressLogs
        = s.progressLogs :=
    stop_progressLogs { s with processingStatus := some terminalOkStatus }
  have hlen9 : (stopProgressMonitoring
      { s with processingStatus := some terminalOkStatus
      }).progressLogs.length ≤ 99 := by
    rw [hst]; exact hlen
  have happ := addLog_progressLogs_append
    (stopProgressMonitoring { s with processingStatus := some terminalOkStatus })
    "✅ Processamento concluído" LogType.success (by simp) hlen9
  exact happ.trans (by rw [hst])

/-- C2 (amended): for any state with a live timer handle and a transient log
    within 90 entries, the first terminal observation nulls the handle and
    issues exactly one `clearInterval`; a duplicate terminal observation
    issues no further `clearInterval` (the nulled handle guards the stop),
    but it appends the completion entry to the transient log again — the
    completion is re-logged, not suppressed. -/
theorem c2_amended_stop_once_relog (s : OrchState) (sid : String) (h : Nat)
    (hint : s.progressInterval = some h)
    (hlen : s.progressLogs.length ≤ 90) :
    (pollTick s sid (PollResult.ok terminalOkStatus)).progressInterval = none
      ∧ (pollTick s sid (PollResult.ok terminalOkStatus)).clearCalls
        = s.clearCalls + 1
      ∧ (pollTick (pollTick s sid (PollResult.ok terminalOkStatus)) sid
          (PollResult.ok terminalOkStatus)).clearCalls
        = (pollTick s sid (PollResult.ok terminalOkStatus)).clearCalls
      ∧ (pollTick (pollTick s sid (PollResult.ok terminalOkStatus)) sid
          (PollResult.ok terminalOkStatus)).progressLogs
        = (pollTick s sid (PollResult.ok terminalOkStatus)).progressLogs
          ++ [LogEntry.mk "✅ Processamento concluído" LogType.success] := by
  have hint1 : ({ s with processingStatus := some terminalOkStatus }
      : OrchState).progressInterval = some h := hint
  have hstop1 := stop_of_some
    { s with processingStatus := some terminalOkStatus } h hint1
  have hA : (pollTick s sid (PollResult.ok terminalOkStatus)).progressInterval
      = none := by
    rw [pollTick_terminal_progressInterval, hstop1]
  have hB : (pollTick s sid (PollResult.ok terminalOkStatus)).clearCalls
      = s.clearCalls + 1 := by
    rw [pollTick_terminal_clearCalls, hstop1]
  have hlogs1 := pollTick_terminal_progressLogs s sid (le_trans hlen (by omega))
  have hlen1 : (pollTick s sid
      (PollResult.ok terminalOkStatus)).progressLogs.length ≤ 99 := by
    rw [hlogs1]
    simp only [List.length_append, List.length_cons, List.length_nil]
    omega
  have hint2 : ({ pollTick s sid (PollResult.ok terminalOkStatus) with
      processingStatus := some terminalOkStatus }
        : OrchState).progressInterval = none := hA
  have hstop2 := stop_of_none _ hint2
  refine ⟨hA, hB, ?_, pollTick_terminal_progressLogs _ sid hlen1⟩
  rw [pollTick_terminal_clearCalls, hstop2]

/-- The concrete state instantiating the C2 amended theorem. -/
def c2WitState : OrchState :=
  { progressInterval := some 7, liveTimers := [7],
    progressLogs := [LogEntry.mk "a" LogType.info] }

/-- C2 witness: the amended statement applied at a concrete state with a
    live timer handle 7 and a one-entry transient log. -/
theorem c2_witness :
    (pollTick c2WitState "w"
        (PollResult.ok terminalOkStatus)).progressInterval = none
      ∧ (pollTick c2WitState "w" (PollResult.ok terminalOkStatus)).clearCalls
        = c2WitState.clearCalls + 1
      ∧ (pollTick (pollTick c2WitState "w" (PollResult.ok terminalOkStatus))
          "w" (PollResult.ok terminalOkStatus)).clearCalls
        = (pollTick c2WitState "w" (PollResult.ok terminalOkStatus)).clearCalls
      ∧ (pollTick (pollTick c2WitState "w" (PollResult.ok terminalOkStatus))
          "w" (PollResult.ok terminalOkStatus)).progressLogs
        = (pollTick c2WitState "w"
            (PollResult.ok terminalOkStatus)).progressLogs
          ++ [LogEntry.mk "✅ Processamento concluído" LogType.success] :=
  c2_amended_stop_once_relog c2WitState "w" 7 rfl (by decide)

/-- A fully configured idle state: a file and an output directory are
    selected, no session is running. -/
def c1Base : OrchState :=
  { selectedFile := "/docs/a.pdf", outputDirectory := "/out" }

/-- The state in the middle of the first submission: `processFile` has run
    its synchronous prefix and its worker call is still in flight
    (`processing = true`). -/
def c1Mid : OrchState := (processFileStart c1Base "1000").state

/-- C1 counterexample: with the first submission's worker call still in
    flight (`processing = true`), a second `processFile` submission does not
    fail — it reaches the worker call (`started = true`) and overwrites the
    tracked session id, so a second session starts while one is active; no
    `AlreadyRunning` rejection exists anywhere in these methods. -/
theorem c1_counterexample :
    c1Mid.processing = true
      ∧ (processFileStart c1Mid "1001").started = true
      ∧ (processFileStart c1Mid "1001").state.currentSessionId = "1001" := by
  refine ⟨?_, ?_, ?_⟩ <;> decide

/-- C1 (amended): none of the four submit operations inspects the
    `processing` flag (or any other notion of an active session): whether the
    worker call is issued depends only on each method's path guards —
    `processFile` on a selected file and output directory, `processDirectory`
    on the PDF and output directories, `processFixedDirectory`
    unconditionally, `processSinglePdfFile` on a truthy file argument and an
    output directory.  Hence a second submit while a session is active is
    never rejected with an `AlreadyRunning` error. -/
theorem c1_amended_no_single_flight (s : OrchState) (nowId : String)
    (hf : Bool) (fn : String) :
    (processFileStart s nowId).started
        = (!(s.selectedFile == "") && !(s.outputDirectory == ""))
      ∧ (processDirectoryStart s nowId).started
        = (!(s.pdfDirectory == "") && !(s.outputDirectory == ""))
      ∧ (processFixedDirectoryStart s nowId).started = true
      ∧ (processSinglePdfFileStart s hf fn nowId).started
        = (hf && !(s.outputDirectory == "")) := by
  refine ⟨?_, ?_, rfl, ?_⟩
  · unfold processFileStart
    split_ifs with h
    · rcases h with h | h <;> simp [h, SubmitPhase.started]
    · push_neg at h
      simp [SubmitPhase.started, h.1, h.2]
  · unfold processDirectoryStart
    split_ifs with h
    · rcases h with h | h <;> simp [h, SubmitPhase.started]
    · push_neg at h
      simp [SubmitPhase.started, h.1, h.2]
  · unfold processSinglePdfFileStart
    split_ifs with h
    · rcases h with h | h <;> simp [h, SubmitPhase.started]
    · push_neg at h
      simp [SubmitPhase.started, h.1, h.2]

/-- A store behavior whose every load reports the same corrupted blob while
    repairs keep claiming success: the exact situation "repair succeeded but
    the file is still unreadable". -/
def c5StuckWorld : World :=
  { st := {},
    loadQueue := [Except.error ⟨"UTF-8", ""⟩, Except.error ⟨"UTF-8", ""⟩],
    repairQueue := [{ success := true, message := "r" },
                    { success := true, message := "r" }] }

/-- C5 counterexample: when the reload after a "successful" repair fails with
    a corruption signature again, `loadConfiguration` invokes the repair
    primitive a second time — the repair is not performed exactly once per
    user-level load — and `isRepairingConfig` is never set on this path (no
    true→false toggle happens). -/
theorem c5_counterexample :
    (loadConfiguration 10 c5StuckWorld).repairCalls = 2
      ∧ (loadConfiguration 10 c5StuckWorld).st.flagWasSet = false := by
  refine ⟨?_, ?_⟩ <;> decide

/-- Store behavior for the good path: one corrupted load, then a clean one;
    a single successful repair is available. -/
def c5GoodWorld (e : StoreErr) (cfg : AppCfg) : World :=
  { st := {}, loadQueue := [Except.error e, Except.ok cfg],
    repairQueue := [{ success := true, message := "" }] }

/-- Store behavior for the failing-repair path: one corrupted load and a
    failing repair. -/
def c5BadWorld (e : StoreErr) : World :=
  { st := {}, loadQueue := [Except.error e],
    repairQueue := [{ success := false, message := "" }] }

/-- C5 (amended): a load failure classified as corruption triggers exactly
    one repair invocation followed by one reload when the reload succeeds —
    the successful retried load triggers no second repair — and a failed
    repair is terminal: the load is not retried.  On this
    `loadConfiguration`/`repairConfiguration` path the `isRepairingConfig`
    flag is never toggled.  (Only when the retried load fails with a
    corruption signature again does the cycle repeat, per the
    counterexample.) -/
theorem c5_amended_one_repair_then_reload (e : StoreErr) (cfg : AppCfg)
    (hcorr : corruptionSig e = true) :
    (loadConfiguration 5 (c5GoodWorld e cfg)).repairCalls = 1
      ∧ (loadConfiguration 5 (c5GoodWorld e cfg)).loadCalls = 2
      ∧ (loadConfiguration 5 (c5GoodWorld e cfg)).st.configLoaded = true
      ∧ (loadConfiguration 5 (c5GoodWorld e cfg)).st.flagWasSet = false
      ∧ (loadConfiguration 5 (c5BadWorld e)).repairCalls = 1
      ∧ (loadConfiguration 5 (c5BadWorld e)).loadCalls = 1
      ∧ (loadConfiguration 5 (c5BadWorld e)).st.configLoaded = false := by
  refine ⟨?_, ?_, ?_, ?_, ?_, ?_, ?_⟩ <;>
    simp [loadConfiguration, repairConfiguration, c5GoodWorld, c5BadWorld,
      hcorr, addLog_configLoaded, addLog_flagWasSet,
      logReportLines_configLoaded, logReportLines_flagWasSet]

/-- C5 witness: the amended statement at a concrete corrupted-load error. -/
theorem c5_witness :
    (loadConfiguration 5 (c5GoodWorld ⟨"UTF-8", ""⟩ {})).repairCalls = 1
      ∧ (loadConfiguration 5 (c5GoodWorld ⟨"UTF-8", ""⟩ {})).loadCalls = 2
      ∧ (loadConfiguration 5 (c5GoodWorld ⟨"UTF-8", ""⟩ {})).st.configLoaded
        = true
      ∧ (loadConfiguration 5 (c5GoodWorld ⟨"UTF-8", ""⟩ {})).st.flagWasSet
        = false
      ∧ (loadConfiguration 5 (c5BadWorld ⟨"UTF-8", ""⟩)).repairCalls = 1
      ∧ (loadConfiguration 5 (c5BadWorld ⟨"UTF-8", ""⟩)).loadCalls = 1
      ∧ (loadConfiguration 5 (c5BadWorld ⟨"UTF-8", ""⟩)).st.configLoaded
        = false :=
  c5_amended_one_repair_then_reload ⟨"UTF-8", ""⟩ {} (by decide)

lemma listInfix_iff (sub l : List Char) :
    listInfix sub l = true ↔ sub <:+: l := by
  induction l with
  | nil =>
    simp only [listInfix, List.isEmpty_iff, List.infix_nil]
  | cons c rest ih =>
    simp only [listInfix, Bool.or_eq_true, List.isPrefixOf_iff_prefix, ih,
      List.infix_cons_iff]

/-- Any string containing the full "stream did not contain valid UTF-8"
    message also contains its "UTF-8" fragment. -/
lemma strIncludes_utf8_of_stream (s : String)
    (h : strIncludes s "stream did not contain valid UTF-8" = true) :
    strIncludes s "UTF-8" = true := by
  rw [strIncludes, listInfix_iff] at h ⊢
  have hsub : ("UTF-8".toList)
      <:+: ("stream did not contain valid UTF-8".toList) := by
    rw [← listInfix_iff]
    decide
  exact hsub.trans h

/-- Modelled from the spec's classifier wording: the error "indicates invalid
    text encoding". -/
def specEncodingIndicator (e : StoreErr) : Bool :=
  strIncludes e.message "UTF-8"

/-- Modelled from the spec's classifier wording: the error indicates a
    "structural deserialization failure (e.g., unexpected trailing data)". -/
def specStructuralIndicator (e : StoreErr) : Bool :=
  strIncludes e.message "deserializar" ||
    strIncludes e.message "trailing characters"

/-- Modelled from the spec's classifier wording: the error "references the
    configuration file identity". -/
def specReferencesConfigFile (e : StoreErr) : Bool :=
  strIncludes e.details "licitacao360_config.json"

/-- The corruption classifier the C6 claim describes: (invalid encoding OR
    structural deserialization failure) AND references the config file. -/
def specCorruptionSignature (e : StoreErr) : Bool :=
  (specEncodingIndicator e || specStructuralIndicator e)
    && specReferencesConfigFile e

/-- C6 counterexample: an error whose message mentions UTF-8 but whose
    details never reference the configuration file is classified as
    corruption by the code (both classifiers), yet the claimed
    "(encoding or structural) AND file identity" rule classifies it as a
    plain I/O failure. -/
theorem c6_counterexample :
    corruptionSig ⟨"UTF-8", ""⟩ = true
      ∧ isConfigErrorInit ⟨"UTF-8", ""⟩ = true
      ∧ specCorruptionSignature ⟨"UTF-8", ""⟩ = false := by
  refine ⟨?_, ?_, ?_⟩ <;> decide

/-- C6 (amended): the `loadConfiguration`/`addPersistentLog` classifier
    treats an invalid-encoding indication alone as corruption — the
    configuration-file reference is required only for the structural
    deserialization case; the `initializeConfiguration` classifier is weaker
    still: any one of the file reference, the encoding indication, or a
    structural indication suffices.  Every error matching neither
    disjunction is treated as a plain failure. -/
theorem c6_amended_classifier (e : StoreErr) :
    corruptionSig e
        = (specEncodingIndicator e
          || (specReferencesConfigFile e && specStructuralIndicator e))
      ∧ isConfigErrorInit e
        = (specReferencesConfigFile e
          || specEncodingIndicator e || specStructuralIndicator e) := by
  constructor
  · unfold corruptionSig isUtf8Error isDeserializationError
      specEncodingIndicator specReferencesConfigFile specStructuralIndicator
    cases hlong : strIncludes e.message "stream did not contain valid UTF-8"
    · simp [hlong]
    · have hshort := strIncludes_utf8_of_stream e.message hlong
      simp [hlong, hshort]
  · simp [isConfigErrorInit, specReferencesConfigFile, specEncodingIndicator,
      specStructuralIndicator, Bool.or_assoc]

end Orchestrator
